import Mathlib

/-!
Shallow embedding of the ABAC binding-generation layer of
`src/gcf/geni/auth/binders.py` (geni-tools), together with theorems that
settle the frozen claims about it.

Python strings are modelled as `List Char` (`PyStr`); Python exceptions as
an explicit error type `PyExn`; a Python expression that may raise is a
`PyResult`.  Python dicts that the code builds in insertion order are
modelled as association lists.
-/

set_option autoImplicit false

/-- A Python string, modelled as its list of characters. -/
abbrev PyStr := List Char

/-- The Python exceptions that the embedded code can raise. -/
inductive PyExn where
  /-- `IndexError`, raised by an out-of-range list subscript. -/
  | indexError
  /-- `KeyError`, raised by a missing dict key. -/
  | keyError
  /-- An XML parse failure raised by `xml.dom.minidom.parseString`. -/
  | parseError
  /-- A failure raised by the external credential verifier. -/
  | verificationError
deriving DecidableEq

/-- Outcome of evaluating a Python expression: a value, or a raised exception. -/
inductive PyResult (α : Type) where
  /-- Normal return. -/
  | ok (a : α)
  /-- A raised exception propagating to the caller. -/
  | exn (e : PyExn)
deriving DecidableEq

/-- Exception propagation: evaluate `r`, and on success feed the value to `f`. -/
def PyResult.bind {α β : Type} : PyResult α → (α → PyResult β) → PyResult β
  | .ok a, f => f a
  | .exn e, _ => .exn e

instance : Monad PyResult where
  pure := PyResult.ok
  bind := PyResult.bind

/-- Python's `s.split(sep)` for a one-character separator: no collapsing of
adjacent separators, and the empty string splits to `[""]`. -/
def pySplit (sep : Char) : List Char → List (List Char)
  | [] => [[]]
  | c :: cs =>
    if c = sep then
      [] :: pySplit sep cs
    else
      (c :: (pySplit sep cs).headI) :: (pySplit sep cs).tail

/-- Python's `xs[i]` on a list: the element, or `IndexError` when out of range. -/
def pyIndex {α : Type} (xs : List α) (i : Nat) : PyResult α :=
  match xs[i]? with
  | some x => .ok x
  | none => .exn .indexError

/-- Python's `d[k]` on a dict: the value, or `KeyError` when the key is absent. -/
def pyDictGet {α : Type} (d : List (PyStr × α)) (k : PyStr) : PyResult α :=
  match d.lookup k with
  | some v => .ok v
  | none => .exn .keyError

/-- `_convert_urn(value, obj_type, obj_name)` from binders.py:
`'urn:publicid:IDN+%s+%s+%s' % (value, obj_type, obj_name)`. -/
def convert_urn (value obj_type obj_name : PyStr) : PyStr :=
  "urn:publicid:IDN+".data ++ value ++ "+".data ++ obj_type ++ "+".data ++ obj_name

/-- `convert_slice_urn_to_project_urn(slice_urn)` from binders.py:
take `slice_urn.split('+')[1]`, split it on `':'`, and build
`urn:publicid:IDN+<part0>+project+<part1>`. -/
def convert_slice_urn_to_project_urn (slice_urn : PyStr) : PyResult PyStr := do
  let project_auth_token ← pyIndex (pySplit '+' slice_urn) 1
  let project_auth_parts := pySplit ':' project_auth_token
  let project_auth ← pyIndex project_auth_parts 0
  let project_name ← pyIndex project_auth_parts 1
  pure (convert_urn project_auth "project".data project_name)

/-- `convert_user_urn_to_authority_urn(user_urn)` from binders.py:
take `user_urn.split('+')[1]` whole and build
`urn:publicid:IDN+<token>+authority+ca`. -/
def convert_user_urn_to_authority_urn (user_urn : PyStr) : PyResult PyStr := do
  let user_auth_token ← pyIndex (pySplit '+' user_urn) 1
  pure (convert_urn user_auth_token "authority".data "ca".data)

/-- The user URN `urn:publicid:IDN+A:U+user+N` of the claims. -/
def mkUserUrn (a u n : PyStr) : PyStr :=
  "urn:publicid:IDN".data ++ ('+' :: (a ++ (':' :: u))) ++ ('+' :: ("user".data ++ ('+' :: n)))

/-- The slice URN `urn:publicid:IDN+A:P+slice+S` of the claims. -/
def mkSliceUrn (a p s : PyStr) : PyStr :=
  "urn:publicid:IDN".data ++ ('+' :: (a ++ (':' :: p))) ++ ('+' :: ("slice".data ++ ('+' :: s)))

/-- A node of the `xml.dom.minidom` document tree: an element with a tag
name, attributes and ordered children, or a text node. -/
inductive XmlNode where
  /-- An element node. -/
  | elem (tag : PyStr) (attrs : List (PyStr × PyStr)) (children : List XmlNode)
  /-- A text node. -/
  | text (s : PyStr)

/-- minidom's `node.childNodes`. -/
def childNodes : XmlNode → List XmlNode
  | .elem _ _ cs => cs
  | .text _ => []

/-- minidom's `element.getAttribute(name)`: the attribute value, or the
empty string when the attribute is absent. -/
def getAttribute (n : XmlNode) (name : PyStr) : PyStr :=
  match n with
  | .elem _ attrs _ => (attrs.lookup name).getD []
  | .text _ => []

/-- minidom's `node.nodeType == node.ELEMENT_NODE and node.tagName == name`. -/
def isElementWithTag (name : PyStr) : XmlNode → Bool
  | .elem t _ _ => t = name
  | .text _ => false

mutual

/-- All elements with the given tag in the subtree rooted at a node,
the node itself included, in document (preorder) order. -/
def elemsByTagSelf (name : PyStr) : XmlNode → List XmlNode
  | .text _ => []
  | .elem t a cs =>
    (if t = name then [XmlNode.elem t a cs] else []) ++ elemsByTagFrom name cs

/-- All elements with the given tag in the subtrees of a list of nodes,
in document (preorder) order. -/
def elemsByTagFrom (name : PyStr) : List XmlNode → List XmlNode
  | [] => []
  | n :: ns => elemsByTagSelf name n ++ elemsByTagFrom name ns

end

/-- minidom's `element.getElementsByTagName(name)`: all DESCENDANT elements
with the tag, in document order, the element itself excluded. -/
def getElementsByTagName (n : XmlNode) (name : PyStr) : List XmlNode :=
  elemsByTagFrom name (childNodes n)

/-- The tag of a node (the empty string for a text node). -/
def tagOf : XmlNode → PyStr
  | .elem t _ _ => t
  | .text _ => []

/-- Modelled from the spec: the method identifier `AM_Methods.CREATE_SLIVER_V2`
comes from `base_authorizer.py`, which is not among the excerpted sources; the
spec names this method `CreateSliverV2`. -/
def CREATE_SLIVER_V2 : PyStr := "CreateSliverV2".data

/-- Modelled from the spec: the method identifier `AM_Methods.ALLOCATE_V3`
comes from `base_authorizer.py`, which is not among the excerpted sources; the
spec names this method `AllocateV3`. -/
def ALLOCATE_V3 : PyStr := "AllocateV3".data

/-- Python's `repr` of a string containing no quote, backslash or
non-printable character: the string wrapped in single quotes.  (The strings
the stitching binder serializes are XML id attributes of this plain form.) -/
def pyReprStr (s : PyStr) : PyStr := '\'' :: (s ++ ['\''])

/-- Python 2's `str(xs)` for a list of plain strings: a bracketed,
comma-space-separated sequence of single-quoted `repr`s. -/
def pyStrOfList (xs : List PyStr) : PyStr :=
  '[' :: (List.intercalate ", ".data (xs.map pyReprStr) ++ [']'])

/-- `Stitching_Binder.generate_bindings` from binders.py.  The call
`xml.dom.minidom.parseString` is the function parameter `parseString`; its
`ok` value stands for the parsed document, represented by its root element
(so `rspec_doc.getElementsByTagName('rspec')`, a search over the whole
document, is the root-inclusive `elemsByTagSelf`).  `am_urn` is the
aggregate's own URN read from `agg_mgr._delegate._my_urn`. -/
def Stitching_Binder_generate_bindings
    (parseString : PyStr → PyResult XmlNode)
    (method am_urn : PyStr) (args : List (PyStr × PyStr)) :
    PyResult (List (PyStr × PyStr)) :=
  if method ∈ [CREATE_SLIVER_V2, ALLOCATE_V3] then
    match args.lookup "rspec".data with
    | none => .ok []
    | some rspec_raw => do
      let rspec_doc ← parseString rspec_raw
      let rspec_elt ← pyIndex (elemsByTagSelf "rspec".data rspec_doc) 0
      let stitching_elts := getElementsByTagName rspec_elt "stitching".data
      if stitching_elts.length = 0 then pure []
      else do
        let stitching_elt ← pyIndex stitching_elts 0
        let link_elts := (childNodes rspec_elt).filter (isElementWithTag "link".data)
        let my_link_elts := link_elts.filter (fun link_elt =>
          (getElementsByTagName link_elt "component_manager".data).any
            (fun cm => getAttribute cm "name".data == am_urn))
        let my_link_ids := my_link_elts.map
          (fun link_elt => getAttribute link_elt "client_id".data)
        let my_paths := (getElementsByTagName stitching_elt "path".data).filter
          (fun path => my_link_ids.contains (getAttribute path "id".data))
        let requested_stitch_points := (my_paths.map (fun path =>
          (getElementsByTagName path "link".data).map
            (fun link => getAttribute link "id".data))).flatten
        pure [("$REQUESTED_STITCH_POINTS".data, pyStrOfList requested_stitch_points)]
  else .ok []

/-- The fields of `time.localtime()` that the standard binder reads. -/
structure TimeParts where
  /-- Hour of day. -/
  tm_hour : Nat
  /-- Month. -/
  tm_mon : Nat
  /-- Year. -/
  tm_year : Nat
  /-- Day of week. -/
  tm_wday : Nat

/-- Python's `str(n)` on a non-negative integer. -/
def pyStrOfNat (n : Nat) : PyStr := (toString n).data

/-- `Standard_Binder.generate_bindings` from binders.py.  The external
identity decoder `gid.GID(string=caller).get_urn()` is the function
parameter `get_urn`; the clock `time.localtime()` is the parameter `now`.
The bindings dict is built in insertion order: `$METHOD`, `$CALLER`,
`$SLICE_URN`, `$PROJECT_URN`, `$CALLER_AUTHORITY`, `$HOUR`, `$MONTH`,
`$YEAR`, `$DAY_OF_WEEK`.  Note `args['slice_urn']` is an unguarded dict
subscript. -/
def Standard_Binder_generate_bindings (get_urn : PyStr → PyStr) (now : TimeParts)
    (method caller : PyStr) (args : List (PyStr × PyStr)) :
    PyResult (List (PyStr × PyStr)) := do
  let caller_urn := get_urn caller
  let slice_urn ← pyDictGet args "slice_urn".data
  let project_urn ← convert_slice_urn_to_project_urn slice_urn
  let caller_authority ← convert_user_urn_to_authority_urn caller_urn
  pure [("$METHOD".data, method),
        ("$CALLER".data, caller_urn),
        ("$SLICE_URN".data, slice_urn),
        ("$PROJECT_URN".data, project_urn),
        ("$CALLER_AUTHORITY".data, caller_authority),
        ("$HOUR".data, pyStrOfNat now.tm_hour),
        ("$MONTH".data, pyStrOfNat now.tm_mon),
        ("$YEAR".data, pyStrOfNat now.tm_year),
        ("$DAY_OF_WEEK".data, pyStrOfNat now.tm_wday)]

/-- `_retrieve_context_urns(caller, args)` from binders.py: returns
`(caller_urn, slice_urn, project_urn, authority_urn)`, the slice and project
components being `None` when `slice_urn` is absent from the arguments. -/
def retrieve_context_urns (get_urn : PyStr → PyStr) (caller : PyStr)
    (args : List (PyStr × PyStr)) :
    PyResult (PyStr × Option PyStr × Option PyStr × PyStr) :=
  match args.lookup "slice_urn".data with
  | some slice_urn => do
    let project_urn ← convert_slice_urn_to_project_urn slice_urn
    let caller_urn := get_urn caller
    let authority_urn ← convert_user_urn_to_authority_urn caller_urn
    pure (caller_urn, some slice_urn, some project_urn, authority_urn)
  | none => do
    let caller_urn := get_urn caller
    let authority_urn ← convert_user_urn_to_authority_urn caller_urn
    pure (caller_urn, none, none, authority_urn)

/-- `SFA_Binder.generate_bindings` from binders.py.  The privilege table
`SFA_Authorizer.METHOD_ATTRIBUTES` lives in `sfa_authorizer.py`, which is not
among the excerpted sources; following the spec it is the parameter
`method_attributes`, a closed method-indexed table whose subscript raises
`KeyError` for an unknown method.  The external verifier call
`CredentialVerifier.verify_from_strings` is the parameter `verify`.  The
table subscript happens BEFORE the `try` block; only the verifier call is
guarded, and `except Exception: pass` leaves the dict empty on any verifier
failure. -/
def SFA_Binder_generate_bindings
    (method_attributes : List (PyStr × List PyStr))
    (verify : PyStr → List PyStr → Option PyStr → List PyStr →
      List (PyStr × PyStr) → PyResult (List PyStr))
    (method caller : PyStr) (creds : List PyStr)
    (args opts : List (PyStr × PyStr)) :
    PyResult (List (PyStr × PyStr)) := do
  let slice_urn : Option PyStr := args.lookup "slice_urn".data
  let privileges ← pyDictGet method_attributes method
  match verify caller creds slice_urn privileges opts with
  | .ok _ => pure [("$SFA_AUTHORIZED".data, "True".data)]
  | .exn _ => pure []

/-- Spec §4.4 step 4, in the spec's words: a direct-child `link` element of
the root is selected exactly when at least one of its nested
`component_manager` elements has a `name` attribute equal (case-sensitively,
with no normalization) to this aggregate's URN. -/
def spec_selected_links (am_urn : PyStr) (root_children : List XmlNode) :
    List XmlNode :=
  (root_children.filter (isElementWithTag "link".data)).filter
    (fun l => decide (∃ cm ∈ elemsByTagFrom "component_manager".data (childNodes l),
      getAttribute cm "name".data = am_urn))

/-- Spec §4.4 steps 5 to 7, in the spec's words: collect the `client_id`s of
the selected links; keep the `path` elements inside the stitching element
whose `id` is among them; concatenate, preserving encounter order and keeping
duplicates, the `id`s of every nested `link` of each kept path. -/
def spec_stitch_points (am_urn : PyStr) (root_children : List XmlNode)
    (stitching_elt : XmlNode) : List PyStr :=
  let myLinkIds := (spec_selected_links am_urn root_children).map
    (fun l => getAttribute l "client_id".data)
  ((getElementsByTagName stitching_elt "path".data).filter
      (fun path => decide (getAttribute path "id".data ∈ myLinkIds))).flatMap
    (fun path => (getElementsByTagName path "link".data).map
      (fun link => getAttribute link "id".data))

/-- The rspec document of the spec's stitching example (claim C5): one
direct-child `link` naming this aggregate in a `component_manager`, and one
stitching `path` with the matching id containing two nested links `L1`,
`L2`. -/
def c5Doc : XmlNode :=
  .elem "rspec".data []
    [ .elem "link".data [("client_id".data, "link-am1-am2".data)]
        [ .elem "component_manager".data
            [("name".data, "urn:publicid:IDN+am1+authority+am".data)] [] ],
      .elem "stitching".data []
        [ .elem "path".data [("id".data, "link-am1-am2".data)]
            [ .elem "link".data [("id".data, "L1".data)] [],
              .elem "link".data [("id".data, "L2".data)] [] ] ] ]

/-- A well-formed document whose root element is named `foo`, not `rspec`,
with an `rspec` element nested below it (claim C7's counterexample). -/
def c7Doc : XmlNode :=
  .elem "foo".data [] [ .elem "rspec".data [] [] ]

/-- The stitching element of the document witnessing claim C9: two paths
whose ids match selected links (sharing a nested link id, so duplicates are
kept) and one path whose id matches no selected link. -/
def c9Stitch : XmlNode :=
  .elem "stitching".data []
    [ .elem "path".data [("id".data, "pathA".data)]
        [ .elem "link".data [("id".data, "S1".data)] [],
          .elem "link".data [("id".data, "S2".data)] [] ],
      .elem "path".data [("id".data, "pathC".data)]
        [ .elem "link".data [("id".data, "S9".data)] [] ],
      .elem "path".data [("id".data, "pathB".data)]
        [ .elem "link".data [("id".data, "S1".data)] [] ] ]

/-- The children of the rspec root of the document witnessing claim C9:
three direct-child links, of which the first and second name this aggregate
(`urn:my-am`) in a component_manager, plus the stitching element. -/
def c9Children : List XmlNode :=
  [ .elem "link".data [("client_id".data, "pathA".data)]
      [ .elem "component_manager".data [("name".data, "urn:my-am".data)] [] ],
    .elem "link".data [("client_id".data, "pathB".data)]
      [ .elem "component_manager".data [("name".data, "urn:other-am".data)] [],
        .elem "component_manager".data [("name".data, "urn:my-am".data)] [] ],
    .elem "link".data [("client_id".data, "pathC".data)]
      [ .elem "component_manager".data [("name".data, "urn:other-am".data)] [] ],
    c9Stitch ]

/-- The rspec document witnessing claim C9. -/
def c9Doc : XmlNode := .elem "rspec".data [] c9Children

@[simp] theorem pure_eq_ok {α : Type} (a : α) : (pure a : PyResult α) = .ok a := rfl

@[simp] theorem ok_bind {α β : Type} (a : α) (f : α → PyResult β) :
    (PyResult.ok a >>= f) = f a := rfl

@[simp] theorem exn_bind {α β : Type} (e : PyExn) (f : α → PyResult β) :
    ((PyResult.exn e : PyResult α) >>= f) = PyResult.exn e := rfl

theorem pySplit_of_not_mem {sep : Char} {s : List Char} (h : sep ∉ s) :
    pySplit sep s = [s] := by
  induction s with
  | nil => rfl
  | cons c cs ih =>
    have hc : ¬ (c = sep) := fun hcs => h (hcs ▸ List.mem_cons_self c cs)
    have hcs : sep ∉ cs := fun hm => h (List.mem_cons_of_mem c hm)
    simp [pySplit, hc, ih hcs]

theorem pySplit_append_cons {sep : Char} {a b : List Char} (h : sep ∉ a) :
    pySplit sep (a ++ sep :: b) = a :: pySplit sep b := by
  induction a with
  | nil => simp [pySplit]
  | cons c cs ih =>
    have hc : ¬ (c = sep) := fun hcs => h (hcs ▸ List.mem_cons_self c cs)
    have hcs : sep ∉ cs := fun hm => h (List.mem_cons_of_mem c hm)
    simp [pySplit, hc, ih hcs]

example : pySplit '+' "a+b".data = ["a".data, "b".data] := by decide
example : pySplit '+' "abc".data = ["abc".data] := by decide
example : pySplit '+' [] = [[]] := by decide
example : mkSliceUrn "example.org".data "myproj".data "myslice".data
    = "urn:publicid:IDN+example.org:myproj+slice+myslice".data := by decide
example : mkUserUrn "example.org".data "bob".data "bob".data
    = "urn:publicid:IDN+example.org:bob+user+bob".data := by decide

/-- Claim C2: for every well-formed slice URN `urn:publicid:IDN+A:P+slice+S`
(`A` and `P` free of the separators `+` and `:`), the project-URN derivation
returns `urn:publicid:IDN+A+project+P`: the second `+`-segment is split on
`:` into `(A, P)`, `A` becomes the authority, `P` the name, type `project`. -/
theorem C2_project_urn_from_slice (a p s : PyStr)
    (ha1 : '+' ∉ a) (hp1 : '+' ∉ p) (ha2 : ':' ∉ a) (hp2 : ':' ∉ p) :
    convert_slice_urn_to_project_urn (mkSliceUrn a p s)
      = .ok (convert_urn a "project".data p) := by
  have ht : '+' ∉ a ++ (':' :: p) := by
    intro hmem
    rcases List.mem_append.mp hmem with h | h
    · exact ha1 h
    · rcases List.mem_cons.mp h with h | h
      · exact absurd h (by decide)
      · exact hp1 h
  have hpre : '+' ∉ ("urn:publicid:IDN".data : List Char) := by decide
  have hform : mkSliceUrn a p s
      = "urn:publicid:IDN".data
          ++ ('+' :: ((a ++ (':' :: p)) ++ ('+' :: ("slice".data ++ ('+' :: s))))) := by
    simp [mkSliceUrn, List.append_assoc]
  have hsplit : pySplit '+' (mkSliceUrn a p s)
      = "urn:publicid:IDN".data :: (a ++ (':' :: p))
          :: pySplit '+' ("slice".data ++ ('+' :: s)) := by
    rw [hform, pySplit_append_cons hpre, pySplit_append_cons ht]
  have hsplit2 : pySplit ':' (a ++ (':' :: p)) = [a, p] := by
    rw [pySplit_append_cons ha2, pySplit_of_not_mem hp2]
  simp [convert_slice_urn_to_project_urn, hsplit, hsplit2, pyIndex]

/-- Witness for C2 at the spec's own example. -/
theorem C2_project_urn_from_slice_witness :
    convert_slice_urn_to_project_urn
        (mkSliceUrn "example.org".data "myproj".data "myslice".data)
      = .ok (convert_urn "example.org".data "project".data "myproj".data) :=
  C2_project_urn_from_slice "example.org".data "myproj".data "myslice".data
    (by decide) (by decide) (by decide) (by decide)

/-- Claim C1, counterexample: at the spec's own example
`urn:publicid:IDN+example.org:bob+user+bob`, the code keeps the whole
authority token `example.org:bob`; it does not truncate it at the `:` to
`example.org` as the claim states. -/
theorem C1_counterexample :
    convert_user_urn_to_authority_urn "urn:publicid:IDN+example.org:bob+user+bob".data
        = .ok "urn:publicid:IDN+example.org:bob+authority+ca".data ∧
    convert_user_urn_to_authority_urn "urn:publicid:IDN+example.org:bob+user+bob".data
        ≠ .ok "urn:publicid:IDN+example.org+authority+ca".data := by
  decide

/-- Claim C1 as amended: for every well-formed user URN
`urn:publicid:IDN+A:U+user+N` (`A`, `U` free of `+`), the authority-URN
derivation returns `urn:publicid:IDN+A:U+authority+ca` — the ENTIRE second
`+`-segment `A:U` becomes the authority (no split on `:`), the type is
`authority`, and the name is the literal `ca`. -/
theorem C1_authority_urn_keeps_whole_token (a u n : PyStr)
    (ha : '+' ∉ a) (hu : '+' ∉ u) :
    convert_user_urn_to_authority_urn (mkUserUrn a u n)
      = .ok (convert_urn (a ++ (':' :: u)) "authority".data "ca".data) := by
  have ht : '+' ∉ a ++ (':' :: u) := by
    intro hmem
    rcases List.mem_append.mp hmem with h | h
    · exact ha h
    · rcases List.mem_cons.mp h with h | h
      · exact absurd h (by decide)
      · exact hu h
  have hpre : '+' ∉ ("urn:publicid:IDN".data : List Char) := by decide
  have hform : mkUserUrn a u n
      = "urn:publicid:IDN".data
          ++ ('+' :: ((a ++ (':' :: u)) ++ ('+' :: ("user".data ++ ('+' :: n))))) := by
    simp [mkUserUrn, List.append_assoc]
  have hsplit : pySplit '+' (mkUserUrn a u n)
      = "urn:publicid:IDN".data :: (a ++ (':' :: u))
          :: pySplit '+' ("user".data ++ ('+' :: n)) := by
    rw [hform, pySplit_append_cons hpre, pySplit_append_cons ht]
  simp [convert_user_urn_to_authority_urn, hsplit, pyIndex]

/-- Witness for the amended C1 at the spec's example. -/
theorem C1_authority_urn_keeps_whole_token_witness :
    convert_user_urn_to_authority_urn
        (mkUserUrn "example.org".data "bob".data "bob".data)
      = .ok (convert_urn ("example.org".data ++ (':' :: "bob".data))
               "authority".data "ca".data) :=
  C1_authority_urn_keeps_whole_token "example.org".data "bob".data "bob".data
    (by decide) (by decide)

/-- Claim C3, counterexample: `urn:publicid:IDN+a+user+b` is malformed by the
claim's own criterion (its second `+`-segment `a` contains no `:`), yet
`convert_user_urn_to_authority_urn` raises nothing and returns a fully built
URN — so it is false that BOTH derivation functions raise on such inputs. -/
theorem C3_counterexample :
    (pySplit '+' "urn:publicid:IDN+a+user+b".data)[1]? = some "a".data ∧
    ':' ∉ "a".data ∧
    convert_user_urn_to_authority_urn "urn:publicid:IDN+a+user+b".data
      = .ok "urn:publicid:IDN+a+authority+ca".data := by
  decide

/-- Claim C3 as amended: on an input with no `+` at all, both derivation
functions raise (a Python `IndexError`, there being no `MalformedUrnError`
in the code); on an input whose second `+`-segment contains no `:`,
`convert_slice_urn_to_project_urn` raises an `IndexError` while
`convert_user_urn_to_authority_urn` succeeds and returns a built URN. -/
theorem C3_malformed_urn_behaviour (s : PyStr) :
    ('+' ∉ s →
      convert_slice_urn_to_project_urn s = .exn .indexError ∧
      convert_user_urn_to_authority_urn s = .exn .indexError) ∧
    (∀ t : PyStr, (pySplit '+' s)[1]? = some t → ':' ∉ t →
      convert_slice_urn_to_project_urn s = .exn .indexError ∧
      convert_user_urn_to_authority_urn s
        = .ok (convert_urn t "authority".data "ca".data)) := by
  constructor
  · intro h
    have h1 := pySplit_of_not_mem h
    constructor
    · simp [convert_slice_urn_to_project_urn, h1, pyIndex]
    · simp [convert_user_urn_to_authority_urn, h1, pyIndex]
  · intro t ht hc
    have h2 : pySplit ':' t = [t] := pySplit_of_not_mem hc
    constructor
    · simp [convert_slice_urn_to_project_urn, pyIndex, ht, h2]
    · simp [convert_user_urn_to_authority_urn, pyIndex, ht]

/-- Witness for the amended C3 on the separator-free input `nosep`. -/
theorem C3_malformed_urn_behaviour_witness :
    convert_slice_urn_to_project_urn "nosep".data = .exn .indexError ∧
    convert_user_urn_to_authority_urn "nosep".data = .exn .indexError :=
  (C3_malformed_urn_behaviour "nosep".data).1 (by decide)

theorem any_name_eq_decide (l : List XmlNode) (am_urn : PyStr) :
    (l.any fun cm => getAttribute cm "name".data == am_urn)
      = decide (∃ cm ∈ l, getAttribute cm "name".data = am_urn) := by
  rw [Bool.eq_iff_iff]
  simp

theorem contains_eq_decide_mem (ids : List PyStr) (x : PyStr) :
    ids.contains x = decide (x ∈ ids) := by
  rw [Bool.eq_iff_iff]
  simp

/-- Claim C4: in any call context whose method is a key of the privilege
table, the SFA binder returns exactly the one-entry mapping
`{$SFA_AUTHORIZED: "True"}` when the verifier call succeeds, and the empty
mapping — no exception escaping — when the verifier raises. -/
theorem C4_sfa_binder_verifier_outcome
    (method_attributes : List (PyStr × List PyStr))
    (verify : PyStr → List PyStr → Option PyStr → List PyStr →
      List (PyStr × PyStr) → PyResult (List PyStr))
    (method caller : PyStr) (creds : List PyStr)
    (args opts : List (PyStr × PyStr)) (privileges : List PyStr)
    (h : method_attributes.lookup method = some privileges) :
    (∀ new_creds,
      verify caller creds (args.lookup "slice_urn".data) privileges opts
          = .ok new_creds →
      SFA_Binder_generate_bindings method_attributes verify method caller creds args opts
        = .ok [("$SFA_AUTHORIZED".data, "True".data)]) ∧
    (∀ e,
      verify caller creds (args.lookup "slice_urn".data) privileges opts = .exn e →
      SFA_Binder_generate_bindings method_attributes verify method caller creds args opts
        = .ok []) := by
  constructor
  · intro new_creds hv
    simp [SFA_Binder_generate_bindings, pyDictGet, h, hv]
  · intro e hv
    simp [SFA_Binder_generate_bindings, pyDictGet, h, hv]

/-- Witness for C4: a one-method table, one always-succeeding and one
always-raising verifier stub. -/
theorem C4_sfa_binder_verifier_outcome_witness :
    SFA_Binder_generate_bindings [("Allocate".data, [])] (fun _ _ _ _ _ => .ok [])
        "Allocate".data "caller-cert".data [] [] []
      = .ok [("$SFA_AUTHORIZED".data, "True".data)] ∧
    SFA_Binder_generate_bindings [("Allocate".data, [])]
        (fun _ _ _ _ _ => .exn .verificationError)
        "Allocate".data "caller-cert".data [] [] []
      = .ok [] :=
  ⟨(C4_sfa_binder_verifier_outcome [("Allocate".data, [])] (fun _ _ _ _ _ => .ok [])
      "Allocate".data "caller-cert".data [] [] [] [] (by decide)).1 [] rfl,
   (C4_sfa_binder_verifier_outcome [("Allocate".data, [])]
      (fun _ _ _ _ _ => .exn .verificationError)
      "Allocate".data "caller-cert".data [] [] [] [] (by decide)).2
     .verificationError rfl⟩

/-- Claim C10 (implicit): the privilege-table subscript
`SFA_Authorizer.METHOD_ATTRIBUTES[method]` happens before the guarded
region, so for a method that is not a key of the table the SFA binder
raises a KeyError to its caller instead of returning a mapping. -/
theorem C10_sfa_binder_unknown_method_raises
    (method_attributes : List (PyStr × List PyStr))
    (verify : PyStr → List PyStr → Option PyStr → List PyStr →
      List (PyStr × PyStr) → PyResult (List PyStr))
    (method caller : PyStr) (creds : List PyStr)
    (args opts : List (PyStr × PyStr))
    (h : method_attributes.lookup method = none) :
    SFA_Binder_generate_bindings method_attributes verify method caller creds args opts
      = .exn .keyError := by
  simp [SFA_Binder_generate_bindings, pyDictGet, h]

/-- Witness for C10: an empty privilege table and a verifier stub that
would succeed; the KeyError still escapes. -/
theorem C10_sfa_binder_unknown_method_raises_witness :
    SFA_Binder_generate_bindings [] (fun _ _ _ _ _ => .ok [])
        "Unknown".data "caller-cert".data [] [] []
      = .exn .keyError :=
  C10_sfa_binder_unknown_method_raises [] (fun _ _ _ _ _ => .ok [])
    "Unknown".data "caller-cert".data [] [] [] (by decide)

/-- Claim C6: for every method outside {CreateSliverV2, AllocateV3} the
stitching binder returns the empty mapping, whatever the parser, the
aggregate URN and the arguments — the result does not depend on the rspec
argument, which is never parsed. -/
theorem C6_stitching_binder_other_methods_empty
    (parseString : PyStr → PyResult XmlNode) (method am_urn : PyStr)
    (args : List (PyStr × PyStr))
    (h : method ∉ [CREATE_SLIVER_V2, ALLOCATE_V3]) :
    Stitching_Binder_generate_bindings parseString method am_urn args = .ok [] := by
  simp [Stitching_Binder_generate_bindings, h]

/-- Witness for C6: an unknown method with an rspec argument present and a
parser stub that raises on any input — the binder still returns the empty
mapping, so the rspec is never parsed. -/
theorem C6_stitching_binder_other_methods_empty_witness :
    Stitching_Binder_generate_bindings (fun _ => .exn .parseError)
        "GetVersion".data "urn:my-am".data [("rspec".data, "never parsed".data)]
      = .ok [] :=
  C6_stitching_binder_other_methods_empty (fun _ => .exn .parseError)
    "GetVersion".data "urn:my-am".data [("rspec".data, "never parsed".data)]
    (by decide)

/-- Claim C7, counterexample: a well-formed document whose root element is
`foo`, not `rspec`, with an `rspec` element nested below it.  The claim says
the binder raises on any document that is not well-formed with an `rspec`
root; the code instead accepts it (using the first `rspec` element found
anywhere) and returns the empty mapping. -/
theorem C7_counterexample :
    tagOf c7Doc ≠ "rspec".data ∧
    Stitching_Binder_generate_bindings (fun _ => .ok c7Doc) CREATE_SLIVER_V2
        "urn:my-am".data [("rspec".data, "x".data)]
      = .ok [] := by
  decide

/-- Claim C7 as amended, for a method in {CreateSliverV2, AllocateV3}: an
absent rspec argument yields the empty mapping without raising; a parse
failure propagates to the caller; a parsed document containing NO element
named rspec anywhere raises an IndexError that propagates; and a parsed
document whose first rspec element contains no stitching element yields the
empty mapping.  (The claim's stronger condition — raising whenever the root
element is not rspec — is refuted by the counterexample.) -/
theorem C7_stitching_binder_error_behaviour
    (parseString : PyStr → PyResult XmlNode) (method am_urn : PyStr)
    (args : List (PyStr × PyStr))
    (hm : method ∈ [CREATE_SLIVER_V2, ALLOCATE_V3]) :
    (args.lookup "rspec".data = none →
      Stitching_Binder_generate_bindings parseString method am_urn args = .ok []) ∧
    (∀ raw e, args.lookup "rspec".data = some raw → parseString raw = .exn e →
      Stitching_Binder_generate_bindings parseString method am_urn args = .exn e) ∧
    (∀ raw doc, args.lookup "rspec".data = some raw → parseString raw = .ok doc →
      elemsByTagSelf "rspec".data doc = [] →
      Stitching_Binder_generate_bindings parseString method am_urn args
        = .exn .indexError) ∧
    (∀ raw doc relt rest, args.lookup "rspec".data = some raw →
      parseString raw = .ok doc →
      elemsByTagSelf "rspec".data doc = relt :: rest →
      getElementsByTagName relt "stitching".data = [] →
      Stitching_Binder_generate_bindings parseString method am_urn args = .ok []) := by
  refine ⟨?_, ?_, ?_, ?_⟩
  · intro h
    simp [Stitching_Binder_generate_bindings, hm, h]
  · intro raw e h1 h2
    simp [Stitching_Binder_generate_bindings, hm, h1, h2]
  · intro raw doc h1 h2 h3
    simp [Stitching_Binder_generate_bindings, hm, h1, h2, h3, pyIndex]
  · intro raw doc relt rest h1 h2 h3 h4
    simp [Stitching_Binder_generate_bindings, hm, h1, h2, h3, h4, pyIndex]

/-- Witness for the amended C7, at its parse-failure case: the parse error
raised by the parser stub propagates out of the binder. -/
theorem C7_stitching_binder_error_behaviour_witness :
    Stitching_Binder_generate_bindings (fun _ => .exn .parseError)
        CREATE_SLIVER_V2 "urn:my-am".data [("rspec".data, "malformed".data)]
      = .exn .parseError :=
  (C7_stitching_binder_error_behaviour (fun _ => .exn .parseError)
      CREATE_SLIVER_V2 "urn:my-am".data [("rspec".data, "malformed".data)]
      (by decide)).2.1 "malformed".data .parseError rfl rfl

/-- Claim C5, counterexample: on the spec's stitching example the bound
value is Python's `str()` of a list of strings, which single-quotes every
element — `"['L1', 'L2']"`, not the claimed `"[L1, L2]"`. -/
theorem C5_counterexample :
    Stitching_Binder_generate_bindings (fun _ => .ok c5Doc) CREATE_SLIVER_V2
        "urn:publicid:IDN+am1+authority+am".data [("rspec".data, "x".data)]
      ≠ .ok [("$REQUESTED_STITCH_POINTS".data, "[L1, L2]".data)] := by
  decide

/-- Claim C5 as amended: on the spec's stitching example the binder returns
exactly the mapping `{"$REQUESTED_STITCH_POINTS": "['L1', 'L2']"}` (Python 2
`str()` of the order-preserving list of nested link ids). -/
theorem C5_stitch_example_value :
    Stitching_Binder_generate_bindings (fun _ => .ok c5Doc) CREATE_SLIVER_V2
        "urn:publicid:IDN+am1+authority+am".data [("rspec".data, "x".data)]
      = .ok [("$REQUESTED_STITCH_POINTS".data, "['L1', 'L2']".data)] := by
  decide

/-- Claim C8, counterexample: with `slice_urn` absent from the arguments the
standard binder does not omit the slice-derived bindings and keep the rest —
the unguarded `args['slice_urn']` subscript raises a KeyError, so no mapping
at all is produced. -/
theorem C8_counterexample :
    Standard_Binder_generate_bindings id ⟨10, 3, 2014, 2⟩ "CreateSliver".data
        "urn:publicid:IDN+example.org+user+bob".data []
      = .exn .keyError := by
  decide

/-- Claim C8 as amended: when `slice_urn` is absent from the call arguments,
`Standard_Binder.generate_bindings` raises a KeyError — producing no
bindings at all, so in particular never binding a variable to the empty
string as a stand-in — while the helper `_retrieve_context_urns` is the code
path that silently omits: it returns `None` for the slice and project URNs
and still produces the caller and authority URNs. -/
theorem C8_missing_slice_urn_behaviour (get_urn : PyStr → PyStr) (now : TimeParts)
    (method caller : PyStr) (args : List (PyStr × PyStr))
    (h : args.lookup "slice_urn".data = none) :
    Standard_Binder_generate_bindings get_urn now method caller args
        = .exn .keyError ∧
    retrieve_context_urns get_urn caller args
      = (convert_user_urn_to_authority_urn (get_urn caller) >>= fun authority_urn =>
          pure (get_urn caller, none, none, authority_urn)) := by
  constructor
  · simp [Standard_Binder_generate_bindings, pyDictGet, h]
  · simp [retrieve_context_urns, h]

/-- Witness for the amended C8 at a concrete context with no slice_urn
argument. -/
theorem C8_missing_slice_urn_behaviour_witness :
    Standard_Binder_generate_bindings id ⟨11, 4, 2015, 3⟩ "ListResources".data
        "urn:publicid:IDN+example.org+user+alice".data []
        = .exn .keyError ∧
    retrieve_context_urns id "urn:publicid:IDN+example.org+user+alice".data []
      = (convert_user_urn_to_authority_urn
            (id "urn:publicid:IDN+example.org+user+alice".data)
          >>= fun authority_urn =>
            pure (id "urn:publicid:IDN+example.org+user+alice".data,
              none, none, authority_urn)) :=
  C8_missing_slice_urn_behaviour id ⟨11, 4, 2015, 3⟩ "ListResources".data
    "urn:publicid:IDN+example.org+user+alice".data [] (by decide)

/-- Claim C9: for an applicable method and a parsed document whose root is
the rspec element with a stitching element below it, a direct-child link of
the root is selected exactly when some nested component_manager has a name
attribute equal to the aggregate's URN, and the bound value serializes the
ids of all nested links of the stitching paths whose id is among the
selected links' client_ids, in encounter order with duplicates kept. -/
theorem C9_stitch_points_characterization
    (parseString : PyStr → PyResult XmlNode) (method am_urn raw : PyStr)
    (args : List (PyStr × PyStr))
    (attrs : List (PyStr × PyStr)) (root_children : List XmlNode)
    (stitching_elt : XmlNode) (rest : List XmlNode)
    (hm : method ∈ [CREATE_SLIVER_V2, ALLOCATE_V3])
    (hr : args.lookup "rspec".data = some raw)
    (hp : parseString raw = .ok (XmlNode.elem "rspec".data attrs root_children))
    (hs : elemsByTagFrom "stitching".data root_children = stitching_elt :: rest) :
    Stitching_Binder_generate_bindings parseString method am_urn args
      = .ok [("$REQUESTED_STITCH_POINTS".data,
          pyStrOfList (spec_stitch_points am_urn root_children stitching_elt))] ∧
    ∀ l, l ∈ spec_selected_links am_urn root_children ↔
      (l ∈ root_children.filter (isElementWithTag "link".data) ∧
       ∃ cm ∈ getElementsByTagName l "component_manager".data,
         getAttribute cm "name".data = am_urn) := by
  constructor
  · simp only [Stitching_Binder_generate_bindings, hm, if_true, hr, hp, ok_bind,
      elemsByTagSelf, getElementsByTagName, childNodes, hs, pyIndex]
    simp only [List.singleton_append, List.getElem?_cons_zero, ok_bind]
    simp only [childNodes, hs, List.length_cons]
    simp only [Nat.succ_ne_zero, if_false, List.getElem?_cons_zero, ok_bind, pure_eq_ok,
      PyResult.ok.injEq, List.cons.injEq, Prod.mk.injEq, and_true, true_and]
    simp only [spec_stitch_points, spec_selected_links, getElementsByTagName, childNodes,
      any_name_eq_decide, contains_eq_decide_mem]
    simp only [List.flatMap]
  · intro l
    simp only [spec_selected_links, List.mem_filter, decide_eq_true_eq,
      getElementsByTagName]

/-- Witness for C9 on a document with three links (two naming this
aggregate) and three paths, one of which repeats a nested link id. -/
theorem C9_stitch_points_characterization_witness :
    Stitching_Binder_generate_bindings (fun _ => .ok c9Doc) ALLOCATE_V3
        "urn:my-am".data [("rspec".data, "x".data)]
      = .ok [("$REQUESTED_STITCH_POINTS".data, "['S1', 'S2', 'S1']".data)] := by
  have h := (C9_stitch_points_characterization (fun _ => .ok c9Doc) ALLOCATE_V3
    "urn:my-am".data "x".data [("rspec".data, "x".data)] [] c9Children c9Stitch []
    (by decide) rfl rfl rfl).1
  rw [h]
  decide
